import Mathlib

/-!
Shallow embedding of the validator-client duty scheduler
(`src/validator_client/src/service.rs`) and the auxiliary eth1
chain-observation cache (`src/beacon_node/eth1_chain/src/cache.rs`).

Slots and epochs are `Nat`; `Slot::epoch(slots_per_epoch)` is integer
division.  The slot clock, the duties manager's answers and the remote
node's responses are inputs to each modelled call, since those
collaborators live outside the two source files.  Log lines and spawned
threads are reified as events so that theorems can speak about them.
-/

/-- Model of `types::Fork { previous_version, current_version, epoch }`.  The two
version fields are 4-byte arrays in the source, modelled as numbers:
the scheduler only clones and forwards them. -/
structure Fork where
  previous_version : Nat
  current_version : Nat
  epoch : Nat
deriving DecidableEq, Repr

/-- The duty record returned by `DutiesManager::get_current_work` for one
validator, as consumed by `process_duties`: a `produce_block` flag and an
optional attestation duty.  The attestation duty's payload type `AD` is
opaque to `service.rs` (it is moved whole into the producer). -/
structure WorkType (AD : Type) where
  produce_block : Bool
  attestation_duty : Option AD
deriving DecidableEq, Repr

/-- Errors produced by `update_current_slot` (`error_chain` strings in the
source): `"Genesis is not in the past. Exiting."` and `"Duplicate slot"`. -/
inductive SvcError where
  | genesisNotInPast
  | duplicateSlot
deriving DecidableEq, Repr

/-- Log lines emitted by `update_current_slot`: the `crit!` on a duplicated
slot and the per-slot `info!("Processing"; slot, epoch)`. -/
inductive LogEvent where
  | critDuplicateSlot
  | infoProcessing (slot : Nat) (epoch : Nat)
deriving DecidableEq, Repr

/-- The scheduler state of `Service` that the per-slot path reads or
writes: the fork snapshot, `current_slot`, `slots_per_epoch` and the
`Arc<ChainSpec>` (modelled as an identifier; tasks receive clones of the
same `Arc`).  The clients, clock and logger are modelled as call inputs
and emitted events. -/
structure ServiceState where
  fork : Fork
  current_slot : Option Nat
  slots_per_epoch : Nat
  spec : Nat
deriving DecidableEq, Repr

/-- A thread spawned by `process_duties`, with the values cloned into it:
`BlockProducer { fork, slot, spec, signer(signer_index), slots_per_epoch }`
or `AttestationProducer { fork, duty, spec, signer(signer_index),
slots_per_epoch }`. -/
inductive DutyTask (AD : Type) where
  | blockProducer (signer_index : Nat) (fork : Fork) (slot : Nat)
      (spec : Nat) (slots_per_epoch : Nat)
  | attestationProducer (signer_index : Nat) (fork : Fork) (duty : AD)
      (spec : Nat) (slots_per_epoch : Nat)
deriving DecidableEq, Repr

/-- The observable side effects of one tick, in program order: the
synchronous `run_update` call made by `check_for_duties` (with the epoch it
refreshes) and each `std::thread::spawn` made by `process_duties`. -/
inductive TickAction (AD : Type) where
  | refresh (epoch : Nat)
  | dispatch (t : DutyTask AD)
deriving DecidableEq, Repr

/-- Result of `per_slot_execution`: next state, log lines, the ordered
side effects, the returned error if any, and whether an `.expect` on
`current_slot` fired (a panic; provably unreachable on the paths taken). -/
structure TickResult (AD : Type) where
  state : ServiceState
  logs : List LogEvent
  actions : List (TickAction AD)
  error : Option SvcError
  panicked : Bool
deriving DecidableEq, Repr

/-- Model of `Service::update_current_slot`.  `clock_now` is what
`self.slot_clock.now()` returned on this tick.  Returns the next state,
the log lines emitted, and the error returned, if any. -/
def update_current_slot (clock_now : Option Nat) (s : ServiceState) :
    ServiceState × List LogEvent × Option SvcError :=
  match clock_now with
  | none => (s, [], some SvcError.genesisNotInPast)
  | some wall_clock_slot =>
    let wall_clock_epoch := wall_clock_slot / s.slots_per_epoch
    match s.current_slot with
    | some current_slot =>
      if wall_clock_slot ≤ current_slot then
        (s, [LogEvent.critDuplicateSlot], some SvcError.duplicateSlot)
      else
        ({ s with current_slot := some wall_clock_slot },
          [LogEvent.infoProcessing wall_clock_slot wall_clock_epoch], none)
    | none =>
      ({ s with current_slot := some wall_clock_slot },
        [LogEvent.infoProcessing wall_clock_slot wall_clock_epoch], none)

/-- Model of `Service::check_for_duties`: computes
`current_slot.expect(..).epoch(slots_per_epoch)` and calls
`duties_manager.run_update(current_epoch)` synchronously.  Returns the
refreshed epoch; `none` models the `.expect` panic when `current_slot`
was never set. -/
def check_for_duties (s : ServiceState) : Option Nat :=
  s.current_slot.map (fun slot => slot / s.slots_per_epoch)

/-- The loop body of `process_duties` for one `(signer_index, work_type)`
pair: if `produce_block`, spawn a `BlockProducer` thread; if
`attestation_duty` is present, spawn an `AttestationProducer` thread.
Each clones `self.fork`, `self.spec`, `self.slots_per_epoch` and the
current slot. -/
def duty_tasks {AD : Type} (s : ServiceState) (slot : Nat)
    (item : Nat × WorkType AD) : List (DutyTask AD) :=
  (if item.2.produce_block then
    [DutyTask.blockProducer item.1 s.fork slot s.spec s.slots_per_epoch]
  else []) ++
  (match item.2.attestation_duty with
    | some duty =>
      [DutyTask.attestationProducer item.1 s.fork duty s.spec s.slots_per_epoch]
    | none => [])

/-- Model of `Service::process_duties`.  `work` is what
`duties_manager.get_current_work(current_slot)` returned.  Yields the
spawned tasks in program order; `none` models the `.expect` panic on an
unset `current_slot`. -/
def process_duties {AD : Type} (work : Option (List (Nat × WorkType AD)))
    (s : ServiceState) : Option (List (DutyTask AD)) :=
  match s.current_slot with
  | none => none
  | some slot =>
    match work with
    | none => some []
    | some w => some (w.flatMap (duty_tasks s slot))

/-- Model of `Service::per_slot_execution`: `update_current_slot()?` (the `?`
short-circuits, so neither `check_for_duties` nor `process_duties` runs
when it errs), then `check_for_duties()` (the synchronous duty refresh),
then `process_duties()` (the thread spawns). -/
def per_slot_execution {AD : Type} (clock_now : Option Nat)
    (work : Option (List (Nat × WorkType AD))) (s : ServiceState) :
    TickResult AD :=
  match update_current_slot clock_now s with
  | (s', logs, some e) => ⟨s', logs, [], some e, false⟩
  | (s', logs, none) =>
    match check_for_duties s', process_duties work s' with
    | some epoch, some tasks =>
      ⟨s', logs, TickAction.refresh epoch :: tasks.map TickAction.dispatch,
        none, false⟩
    | _, _ => ⟨s', logs, [], none, true⟩

/-- One firing of the interval inside `Service::start`'s
`runtime.block_on(interval.for_each(..))`: the closure sleeps
`TIME_DELAY_FROM_SLOT`, runs `per_slot_execution`, binds its result to
`_ignore_error`, and returns `Ok(())` — so the interval stream always
continues to the next firing.  Returns the state after the tick and
whether the loop continues. -/
def slot_interval_step {AD : Type} (clock_now : Option Nat)
    (work : Option (List (Nat × WorkType AD))) (s : ServiceState) :
    ServiceState × Bool :=
  let r := per_slot_execution clock_now work s
  (r.state, true)

/-- Outcome of `Service::start` up to entering the scheduler loop:
either an early `Err` return, or `runtime.block_on` is reached (with the
"Starting node prior to genesis" warning flag recorded). -/
inductive StartResult where
  | fatal (msg : String)
  | loopEntered (warned_pre_genesis : Bool)
deriving DecidableEq, Repr

/-- Model of `Service::start` before the loop: `initialize_service(..)?`, the
tokio runtime `build()?`, then
`slot_clock.duration_to_next_slot().ok_or(..)?`, then the pre-genesis
warning check and `runtime.block_on(interval.for_each(..))`.
`init_result` and `runtime_build` are the outcomes of the first two
fallible steps; `duration_to_next_slot` and `clock_now` are the clock's
answers. -/
def service_start (init_result : Except String Unit)
    (runtime_build : Except String Unit)
    (duration_to_next_slot : Option Nat) (clock_now : Option Nat) :
    StartResult :=
  match init_result with
  | Except.error e => StartResult.fatal e
  | Except.ok _ =>
    match runtime_build with
    | Except.error e => StartResult.fatal e
    | Except.ok _ =>
      match duration_to_next_slot with
      | none =>
        StartResult.fatal "Unable to determine duration to next slot. Exiting."
      | some _ => StartResult.loopEntered clock_now.isNone

/-- The `loop_fn` in `initialize_service` driving
`make_get_request_with_timeout("/node/info")`: an `Ok(r)` attempt logs
"Connected to Beacon Node" and breaks with `r`; an `Err` attempt logs a
warning and continues.  Modelled over the finite list of attempt outcomes
the remote produces: the loop breaks at the first success, returning the
response and the number of warnings logged before it; `none` means every
listed attempt failed and the source loop is still retrying. -/
def try_info_continuously : List (Except Unit String) → Option (String × Nat)
  | [] => none
  | Except.ok r :: _ => some (r, 0)
  | Except.error _ :: rest =>
    (try_info_continuously rest).map (fun p => (p.1, p.2 + 1))

/-- The handshake step of `initialize_service`:
`try_info_continuously.wait()?`.  Both arms of the loop return `Ok`, so
`wait` can only ever yield the successful response; while no attempt has
succeeded the call is still blocked inside the loop (`none`). -/
def init_service_handshake (attempts : List (Except Unit String)) :
    Option (Except String String) :=
  (try_info_continuously attempts).map (fun p => Except.ok p.1)

/-- The body of each spawned duty thread begins by indexing the shared
signer slice: `let signer = &signers[signer_index];` (and the `info!`
line formats `signers[signer_index]` first).  `List.get?` models the
access; `none` models the index-out-of-bounds panic that kills the
thread. -/
def run_duty_task {AD : Type} (signers : List String) :
    DutyTask AD → Option String
  | DutyTask.blockProducer signer_index _ _ _ _ => signers.get? signer_index
  | DutyTask.attestationProducer signer_index _ _ _ _ => signers.get? signer_index

/-- The signer index a task was dispatched with. -/
def task_signer_index {AD : Type} : DutyTask AD → Nat
  | DutyTask.blockProducer signer_index _ _ _ _ => signer_index
  | DutyTask.attestationProducer signer_index _ _ _ _ => signer_index

/-! Eth1 chain-observation cache (`beacon_node/eth1_chain/src/cache.rs`). -/

/-- Model of `types::Eth1Data { deposit_root, deposit_count, block_hash }`, fields
modelled as numbers (the cache only stores and compares them). -/
structure Eth1Data where
  deposit_root : Nat
  deposit_count : Nat
  block_hash : Nat
deriving DecidableEq, Repr

/-- The shared state of `Eth1DataCache`: the `BTreeMap<U256, Eth1Data>`
behind `cache` (an association list keyed by block number) and the `u64`
behind `last_block`. -/
structure CacheState where
  cache : List (Nat × Eth1Data)
  last_block : Nat
deriving DecidableEq, Repr

/-- Model of `cache.read().contains_key(&U256::from(i))`. -/
def cache_contains (m : List (Nat × Eth1Data)) (k : Nat) : Bool :=
  m.any (fun p => p.1 == k)

/-- The future built inside `update_cache`'s loop:
`fetch_eth1_data(i, current_block_number, &fetcher).and_then(insert)`.
In the source this composed future is an expression statement — never
spawned, returned or awaited — so with lazy futures it is dropped
without executing.  We record the arguments it captured. -/
structure DroppedInsertFuture where
  distance : Nat
  current_block_number : Nat
deriving DecidableEq, Repr

/-- The `and_then` closure the dropped future carries: were it executed,
it would insert the fetched `(block_number, eth1_data)` entry into the
cache map. -/
def dropped_insert_effect (st : CacheState) (entry : Nat × Eth1Data) :
    CacheState :=
  { st with cache := entry :: st.cache.filter (fun p => p.1 ≠ entry.1) }

/-- One iteration of the `for i in last_block_read..current_block_number`
loop in `update_cache`: when block `i` is not cached, the insert future
is constructed (and dropped), then `let mut last_block =
*last_block.write(); last_block = current_block_number.as_u64();`
reassigns a dereferenced local copy — the shared `last_block` cell is
never written through the guard. -/
def update_cache_iteration {AD : Type} (_fetcher : AD)
    (current_block_number : Nat)
    (acc : CacheState × List DroppedInsertFuture) (i : Nat) :
    CacheState × List DroppedInsertFuture :=
  if cache_contains acc.1.cache i then acc
  else
    let fut : DroppedInsertFuture := ⟨i, current_block_number⟩
    let _last_block := acc.1.last_block
    let _last_block := current_block_number
    (acc.1, acc.2 ++ [fut])

/-- Model of `Eth1DataCache::update_cache`.  `current_block_result` is what
`fetcher.get_current_block_number()` resolved to; on error the
`map_err` arm prints "Update cache failed".  Returns the shared state
after the call and the insert futures that were constructed and
dropped. -/
def update_cache {AD : Type} (fetcher : AD) (st : CacheState)
    (current_block_result : Except Unit Nat) :
    CacheState × List DroppedInsertFuture :=
  match current_block_result with
  | Except.error _ => (st, [])
  | Except.ok current_block_number =>
    let last_block_read := st.last_block
    (List.range' last_block_read (current_block_number - last_block_read)).foldl
      (update_cache_iteration fetcher current_block_number) (st, [])

/-- The remote eth1 fetcher as seen by `fetch_eth1_data`: each call can
fail at the future level (`Error = ()`), and `get_deposit_count` /
`get_block_hash_by_height` additionally resolve to an `Option`. -/
structure FetcherModel where
  get_deposit_root : Nat → Except Unit Nat
  get_deposit_count : Nat → Except Unit (Option Nat)
  get_block_hash_by_height : Nat → Except Unit (Option Nat)

/-- Model of `U256::checked_sub`. -/
def u256_checked_sub (a b : Nat) : Option Nat :=
  if b ≤ a then some (a - b) else none

/-- The block number `fetch_eth1_data` queries:
`current_block_number.checked_sub(distance.into()).unwrap_or(U256::zero())`. -/
def eth1_block_number (distance current_block_number : Nat) : Nat :=
  (u256_checked_sub current_block_number distance).getD 0

/-- Model of `cache.rs::fetch_eth1_data`: compute the block number with the
saturating subtraction, issue the three fetches at that block, `join3`
them, and build `Eth1Data`; the `?` on `deposit_count` and `block_hash`
makes the resolved item `None` when either is absent. -/
def fetch_eth1_data (distance : Nat) (current_block_number : Nat)
    (fetcher : FetcherModel) : Except Unit (Option (Nat × Eth1Data)) := do
  let block_number : Nat := eth1_block_number distance current_block_number
  let deposit_root ← fetcher.get_deposit_root block_number
  let deposit_count ← fetcher.get_deposit_count block_number
  let block_hash ← fetcher.get_block_hash_by_height block_number
  pure (do
    let dc ← deposit_count
    let bh ← block_hash
    pure (block_number, Eth1Data.mk deposit_root dc bh))

/-! Theorems. -/

/-- Helper: each iteration of the `update_cache` loop returns the shared
state component of its accumulator unchanged, so the whole fold does. -/
theorem update_cache_foldl_fst {AD : Type} (fetcher : AD) (c : Nat)
    (l : List Nat) :
    ∀ acc : CacheState × List DroppedInsertFuture,
      (l.foldl (update_cache_iteration fetcher c) acc).1 = acc.1 := by
  induction l with
  | nil => intro acc; rfl
  | cons i t ih =>
    intro acc
    rw [List.foldl_cons, ih]
    unfold update_cache_iteration
    split <;> rfl

/-- C3: for every prior cache state and fetch result, `update_cache`
leaves the shared `last_block` high-water mark exactly as it was: the
reassignment inside the loop only touches a dereferenced local copy, so
the mark never advances across refreshes. -/
theorem update_cache_last_block_unchanged {AD : Type} (fetcher : AD)
    (st : CacheState) (r : Except Unit Nat) :
    (update_cache fetcher st r).1.last_block = st.last_block := by
  cases r with
  | error e => rfl
  | ok n => rw [update_cache, update_cache_foldl_fst]

/-- C8: for every prior cache state and fetch result, `update_cache`
never inserts into the cache map: the insert future is constructed
inside the loop but dropped without being executed, so the map after the
call equals the map before it. -/
theorem update_cache_cache_unchanged {AD : Type} (fetcher : AD)
    (st : CacheState) (r : Except Unit Nat) :
    (update_cache fetcher st r).1.cache = st.cache := by
  cases r with
  | error e => rfl
  | ok n => rw [update_cache, update_cache_foldl_fst]

/-- C10: when the requested distance exceeds the current block number,
`fetch_eth1_data` does not fail on underflow: `checked_sub` falls back
to zero and the function issues its queries at block number 0 — the same
computation as a call whose saturating subtraction lands exactly on 0. -/
theorem fetch_eth1_data_saturates (distance current : Nat)
    (f : FetcherModel) (h : current < distance) :
    eth1_block_number distance current = 0 ∧
    fetch_eth1_data distance current f = fetch_eth1_data current current f := by
  have h0 : eth1_block_number distance current = 0 := by
    simp [eth1_block_number, u256_checked_sub, Nat.not_le.mpr h]
  refine ⟨h0, ?_⟩
  have h1 : eth1_block_number current current = 0 := by
    simp [eth1_block_number, u256_checked_sub]
  simp only [fetch_eth1_data, h0, h1]

/-- A constant fetcher used to instantiate `fetch_eth1_data_saturates`. -/
def trivialFetcher : FetcherModel :=
  ⟨fun _ => Except.ok 0, fun _ => Except.ok (some 0),
    fun _ => Except.ok (some 0)⟩

/-- Witness for C10 at distance 5, current block 3. -/
theorem fetch_eth1_data_saturates_witness :
    eth1_block_number 5 3 = 0 ∧
    fetch_eth1_data 5 3 trivialFetcher = fetch_eth1_data 3 3 trivialFetcher :=
  fetch_eth1_data_saturates 5 3 trivialFetcher (by decide)

/-- C7: when `duration_to_next_slot` cannot be computed at startup,
`start` returns the fatal error and the scheduler loop is never
entered, whatever the clock would answer. -/
theorem start_fatal_without_next_slot_duration (clock_now : Option Nat)
    (b : Bool) :
    service_start (Except.ok ()) (Except.ok ()) none clock_now =
      StartResult.fatal "Unable to determine duration to next slot. Exiting." ∧
    service_start (Except.ok ()) (Except.ok ()) none clock_now ≠
      StartResult.loopEntered b := by
  refine ⟨rfl, ?_⟩
  intro hct
  exact StartResult.noConfusion hct

/-- C2 evidence: on a tick after startup (a slot has already been
processed) where the clock yields no slot, `per_slot_execution` returns
the "Genesis is not in the past. Exiting." error, but the interval
closure in `start` discards it (`let _ignore_error = ..`) and yields
`Ok(())`, so the loop keeps ticking instead of terminating the
process. -/
theorem clock_failure_not_fatal_after_startup :
    (@per_slot_execution Nat none none
        ⟨⟨0, 0, 0⟩, some 3, 32, 0⟩).error = some SvcError.genesisNotInPast ∧
    @slot_interval_step Nat none none ⟨⟨0, 0, 0⟩, some 3, 32, 0⟩ =
      (⟨⟨0, 0, 0⟩, some 3, 32, 0⟩, true) := by
  exact ⟨rfl, rfl⟩

/-- C1: the last processed slot is strictly increasing.  When the clock
yields a slot `w ≤` the previously processed slot `cs`, that tick logs
the critical warning, returns the duplicate-slot error, leaves
`current_slot` unchanged, and performs no refresh and no dispatch; and
on any tick whatsoever, the stored slot afterwards is either unchanged
or strictly greater. -/
theorem scheduler_slot_strictly_increasing (s : ServiceState) (cs w : Nat)
    (clock_now : Option Nat) (work : Option (List (Nat × WorkType Nat)))
    (w' : Nat) (hcs : s.current_slot = some cs) (hle : w ≤ cs)
    (hw' : (per_slot_execution clock_now work s).state.current_slot = some w') :
    per_slot_execution (some w) work s =
      ⟨s, [LogEvent.critDuplicateSlot], [], some SvcError.duplicateSlot,
        false⟩ ∧
    (w' = cs ∨ cs < w') := by
  constructor
  · simp [per_slot_execution, update_current_slot, hcs, hle]
  · cases clock_now with
    | none =>
      simp [per_slot_execution, update_current_slot, hcs] at hw'
      exact Or.inl hw'.symm
    | some v =>
      by_cases hv : v ≤ cs
      · simp [per_slot_execution, update_current_slot, hcs, hv] at hw'
        exact Or.inl hw'.symm
      · have hupd : update_current_slot (some v) s =
            ({ s with current_slot := some v },
              [LogEvent.infoProcessing v (v / s.slots_per_epoch)], none) := by
          simp [update_current_slot, hcs, hv]
        have hstate :
            (per_slot_execution (some v) work s).state.current_slot = some v := by
          cases work with
          | none =>
            simp [per_slot_execution, hupd, check_for_duties, process_duties]
          | some l =>
            simp [per_slot_execution, hupd, check_for_duties, process_duties]
        rw [hstate] at hw'
        exact Or.inr (Option.some.inj hw' ▸ Nat.lt_of_not_le hv)

/-- Witness for C1: previously processed slot 5, clock yields 5 again. -/
theorem scheduler_slot_strictly_increasing_witness :
    per_slot_execution (some 5) (none : Option (List (Nat × WorkType Nat)))
        ⟨⟨0, 0, 0⟩, some 5, 32, 7⟩ =
      ⟨⟨⟨0, 0, 0⟩, some 5, 32, 7⟩, [LogEvent.critDuplicateSlot], [],
        some SvcError.duplicateSlot, false⟩ ∧
    (5 = 5 ∨ 5 < 5) :=
  scheduler_slot_strictly_increasing ⟨⟨0, 0, 0⟩, some 5, 32, 7⟩ 5 5
    (some 5) none 5 rfl (by decide) rfl

/-- C4: a work item carrying both a block-proposal flag and an
attestation duty makes the tick dispatch two independent tasks — one
block producer and one attestation producer — in the same tick, each
built from the same `fork` and `spec` snapshot held by the service at
tick start. -/
theorem both_duties_dispatch_same_snapshot (s : ServiceState)
    (w i : Nat) (duty : Nat)
    (hready : ∀ cs, s.current_slot = some cs → cs < w) :
    per_slot_execution (some w) (some [(i, ⟨true, some duty⟩)]) s =
      ⟨{ s with current_slot := some w },
        [LogEvent.infoProcessing w (w / s.slots_per_epoch)],
        [TickAction.refresh (w / s.slots_per_epoch),
         TickAction.dispatch
           (DutyTask.blockProducer i s.fork w s.spec s.slots_per_epoch),
         TickAction.dispatch
           (DutyTask.attestationProducer i s.fork duty s.spec
             s.slots_per_epoch)],
        none, false⟩ := by
  have hupd : update_current_slot (some w) s =
      ({ s with current_slot := some w },
        [LogEvent.infoProcessing w (w / s.slots_per_epoch)], none) := by
    cases hsc : s.current_slot with
    | none => simp [update_current_slot, hsc]
    | some cs =>
      have := hready cs hsc
      simp [update_current_slot, hsc, Nat.not_le.mpr this]
  simp [per_slot_execution, hupd, check_for_duties, process_duties,
    duty_tasks]

/-- Witness for C4: fresh service (no slot processed yet), slot 2,
validator index 4 with both duties. -/
theorem both_duties_dispatch_same_snapshot_witness :
    per_slot_execution (some 2) (some [(4, ⟨true, some 9⟩)])
        ⟨⟨1, 2, 3⟩, none, 32, 7⟩ =
      ⟨{ (⟨⟨1, 2, 3⟩, none, 32, 7⟩ : ServiceState) with
          current_slot := some 2 },
        [LogEvent.infoProcessing 2 (2 / 32)],
        [TickAction.refresh (2 / 32),
         TickAction.dispatch (DutyTask.blockProducer 4 ⟨1, 2, 3⟩ 2 7 32),
         TickAction.dispatch
           (DutyTask.attestationProducer 4 ⟨1, 2, 3⟩ 9 7 32)],
        none, false⟩ :=
  both_duties_dispatch_same_snapshot ⟨⟨1, 2, 3⟩, none, 32, 7⟩ 2 4 9
    (by intro cs h; simp at h)

/-- C5: on a tick whose slot update succeeds, the duty refresh for the
epoch of the just-processed slot is the first action of the tick, and
every later action is a dispatch — one task per due (validator, duty)
pair: each work item contributes one block task when its flag is set and
one attestation task when its duty is present. -/
theorem tick_refreshes_then_dispatches (s : ServiceState) (w : Nat)
    (work : List (Nat × WorkType Nat)) (item : Nat × WorkType Nat)
    (hready : ∀ cs, s.current_slot = some cs → cs < w) :
    (per_slot_execution (some w) (some work) s).error = none ∧
    (per_slot_execution (some w) (some work) s).panicked = false ∧
    (per_slot_execution (some w) (some work) s).actions =
      TickAction.refresh (w / s.slots_per_epoch) ::
        (work.flatMap (duty_tasks { s with current_slot := some w } w)).map
          TickAction.dispatch ∧
    (duty_tasks { s with current_slot := some w } w item).length =
      (if item.2.produce_block then 1 else 0) +
      (if item.2.attestation_duty.isSome then 1 else 0) := by
  have hupd : update_current_slot (some w) s =
      ({ s with current_slot := some w },
        [LogEvent.infoProcessing w (w / s.slots_per_epoch)], none) := by
    cases hsc : s.current_slot with
    | none => simp [update_current_slot, hsc]
    | some cs =>
      have := hready cs hsc
      simp [update_current_slot, hsc, Nat.not_le.mpr this]
  refine ⟨?_, ?_, ?_, ?_⟩
  · simp [per_slot_execution, hupd, check_for_duties, process_duties]
  · simp [per_slot_execution, hupd, check_for_duties, process_duties]
  · simp [per_slot_execution, hupd, check_for_duties, process_duties]
  · obtain ⟨i, pb, att⟩ := item
    cases pb <;> cases att <;> simp [duty_tasks]

/-- Witness for C5: prior slot 1, clock yields slot 2, one validator
with an attestation-only work item. -/
theorem tick_refreshes_then_dispatches_witness :
    (per_slot_execution (some 2) (some [(0, ⟨false, some 3⟩)])
        ⟨⟨0, 0, 0⟩, some 1, 32, 0⟩).error = none ∧
    (per_slot_execution (some 2) (some [(0, ⟨false, some 3⟩)])
        ⟨⟨0, 0, 0⟩, some 1, 32, 0⟩).panicked = false ∧
    (per_slot_execution (some 2) (some [(0, ⟨false, some 3⟩)])
        ⟨⟨0, 0, 0⟩, some 1, 32, 0⟩).actions =
      TickAction.refresh (2 / 32) ::
        (List.flatMap [(0, ⟨false, some 3⟩)]
          (duty_tasks
            { (⟨⟨0, 0, 0⟩, some 1, 32, 0⟩ : ServiceState) with
                current_slot := some 2 } 2)).map TickAction.dispatch ∧
    (duty_tasks
        { (⟨⟨0, 0, 0⟩, some 1, 32, 0⟩ : ServiceState) with
            current_slot := some 2 } 2 (0, ⟨false, some 3⟩)).length =
      (if (false : Bool) then 1 else 0) +
      (if (some 3 : Option Nat).isSome then 1 else 0) :=
  tick_refreshes_then_dispatches ⟨⟨0, 0, 0⟩, some 1, 32, 0⟩ 2
    [(0, ⟨false, some 3⟩)] (0, ⟨false, some 3⟩)
    (by intro cs h; simp at h; omega)

/-- C6: the startup liveness/info handshake never surfaces a connection
failure as an initialization error.  After any number of failed
attempts (`pre`, all errors) followed by one success, the loop breaks
with the successful response having logged one warning per failure (no
fixed retry cap); while every attempt has failed the call is still
retrying inside the loop (the scheduler loop has not started); and no
attempt sequence whatsoever makes the handshake return an error. -/
theorem init_handshake_retries_until_success
    (pre attempts : List (Except Unit String)) (r e : String)
    (hpre : ∀ a ∈ pre, a = Except.error ()) :
    try_info_continuously (pre ++ [Except.ok r]) = some (r, pre.length) ∧
    init_service_handshake pre = none ∧
    init_service_handshake attempts ≠ some (Except.error e) := by
  refine ⟨?_, ?_, ?_⟩
  · induction pre with
    | nil => rfl
    | cons a t ih =>
      have ha : a = Except.error () := hpre a (List.mem_cons_self a t)
      have ht : ∀ x ∈ t, x = Except.error () := fun x hx =>
        hpre x (List.mem_cons_of_mem a hx)
      subst ha
      simp [try_info_continuously, ih ht]
  · rw [init_service_handshake]
    have : try_info_continuously pre = none := by
      induction pre with
      | nil => rfl
      | cons a t ih =>
        have ha : a = Except.error () := hpre a (List.mem_cons_self a t)
        have ht : ∀ x ∈ t, x = Except.error () := fun x hx =>
          hpre x (List.mem_cons_of_mem a hx)
        subst ha
        simp [try_info_continuously, ih ht]
    simp [this]
  · rw [init_service_handshake]
    cases h : try_info_continuously attempts with
    | none => simp
    | some p => simp

/-- Witness for C6: two failed attempts, then a successful response. -/
theorem init_handshake_retries_until_success_witness :
    try_info_continuously
        (([Except.error (), Except.error ()] : List (Except Unit String)) ++
          [Except.ok "v0"]) =
      some ("v0",
        ([Except.error (), Except.error ()] : List (Except Unit String)).length) ∧
    init_service_handshake
        ([Except.error (), Except.error ()] : List (Except Unit String)) =
      none ∧
    init_service_handshake ([Except.error ()] : List (Except Unit String)) ≠
      some (Except.error "refused") :=
  init_handshake_retries_until_success
    [Except.error (), Except.error ()] [Except.error ()] "v0" "refused"
    (by intro a ha; simp at ha; exact ha)

/-- Helper: a list lookup by `get?`/`getElem?` resolves exactly when the
index is below the list length. -/
theorem getElem?_isSome_iff_lt (l : List String) (j : Nat) :
    (l[j]?).isSome ↔ j < l.length := by
  rw [Option.isSome_iff_ne_none]
  constructor
  · intro h
    by_contra hlt
    exact h (List.getElem?_eq_none (Nat.le_of_not_lt hlt))
  · intro h hn
    rw [List.getElem?_eq_getElem h] at hn
    cases hn

/-- C9: each duty-thread body indexes the signer slice with the work
item's validator index and no bounds check: the access succeeds exactly
when the index is below the signer count, and an out-of-range index
panics the spawned thread; `process_duties` itself dispatches the index
verbatim — the bound is a precondition on `get_current_work`'s output
that nothing enforces. -/
theorem signer_indexing_unchecked (signers : List String)
    (t : DutyTask Nat) (s : ServiceState) (slot i : Nat)
    (wt : WorkType Nat) (t' : DutyTask Nat)
    (hs : s.current_slot = some slot)
    (ht' : t' ∈ duty_tasks s slot (i, wt)) :
    ((run_duty_task signers t).isSome ↔
      task_signer_index t < signers.length) ∧
    process_duties (some [(i, wt)]) s =
      some (duty_tasks s slot (i, wt)) ∧
    task_signer_index t' = i := by
  refine ⟨?_, ?_, ?_⟩
  · cases t with
    | blockProducer j f sl sp spe =>
      simp [run_duty_task, task_signer_index, getElem?_isSome_iff_lt]
    | attestationProducer j f d sp spe =>
      simp [run_duty_task, task_signer_index, getElem?_isSome_iff_lt]
  · simp [process_duties, hs]
  · obtain ⟨pb, att⟩ := wt
    cases t' <;> cases pb <;> cases att <;>
      simp_all [duty_tasks, task_signer_index]

/-- Witness for C9: one signer, a task with index 0 (in range) checked
against a dispatched item with index 7 (out of range, passed through). -/
theorem signer_indexing_unchecked_witness :
    ((run_duty_task ["a"]
        (DutyTask.blockProducer 0 ⟨0, 0, 0⟩ 0 0 32 : DutyTask Nat)).isSome ↔
      task_signer_index
          (DutyTask.blockProducer 0 ⟨0, 0, 0⟩ 0 0 32 : DutyTask Nat) <
        (["a"] : List String).length) ∧
    process_duties
        (some [(7, ⟨true, none⟩)] : Option (List (Nat × WorkType Nat)))
        ⟨⟨0, 0, 0⟩, some 0, 32, 0⟩ =
      some (duty_tasks ⟨⟨0, 0, 0⟩, some 0, 32, 0⟩ 0
        ((7, ⟨true, none⟩) : Nat × WorkType Nat)) ∧
    task_signer_index
        (DutyTask.blockProducer 7 ⟨0, 0, 0⟩ 0 0 32 : DutyTask Nat) = 7 :=
  signer_indexing_unchecked ["a"] (DutyTask.blockProducer 0 ⟨0, 0, 0⟩ 0 0 32)
    ⟨⟨0, 0, 0⟩, some 0, 32, 0⟩ 0 7 ⟨true, none⟩
    (DutyTask.blockProducer 7 ⟨0, 0, 0⟩ 0 0 32) rfl (by decide)

/-- Witness for C3: a cache holding block 1 with `last_block = 1`, and a
fetch reporting current block 4. -/
theorem update_cache_last_block_unchanged_witness :
    (update_cache (0 : Nat) ⟨[(1, ⟨5, 6, 7⟩)], 1⟩ (Except.ok 4)).1.last_block =
      (⟨[(1, ⟨5, 6, 7⟩)], 1⟩ : CacheState).last_block :=
  update_cache_last_block_unchanged 0 ⟨[(1, ⟨5, 6, 7⟩)], 1⟩ (Except.ok 4)

/-- Witness for C8: same state and fetch result as the C3 witness uses,
checked on the cache map component. -/
theorem update_cache_cache_unchanged_witness :
    (update_cache (0 : Nat) ⟨[(2, ⟨5, 6, 7⟩)], 0⟩ (Except.ok 3)).1.cache =
      (⟨[(2, ⟨5, 6, 7⟩)], 0⟩ : CacheState).cache :=
  update_cache_cache_unchanged 0 ⟨[(2, ⟨5, 6, 7⟩)], 0⟩ (Except.ok 3)

/-- Witness for C7: the clock answers slot 0, yet a missing
`duration_to_next_slot` still aborts `start`. -/
theorem start_fatal_without_next_slot_duration_witness :
    service_start (Except.ok ()) (Except.ok ()) none (some 0) =
      StartResult.fatal "Unable to determine duration to next slot. Exiting." ∧
    service_start (Except.ok ()) (Except.ok ()) none (some 0) ≠
      StartResult.loopEntered false :=
  start_fatal_without_next_slot_duration (some 0) false
